import Mathlib

/-!
Verification development for the DNS-UpdaterA repository.

The repository is a dynamic-DNS updater.  The definitions below are a
shallow embedding of its core logic:

* `RecordDTO`, `ResultUpdateDTO` — the data transfer objects of
  `src/factories/providers/dtos.py`;
* `updateIfChanged` — the orchestrator
  `ProviderCreator.updateIfChanged` of `src/factories/providers/creators.py`,
  with the network collaborators (provider `get`/`update`, the public-IP
  service) passed in as functions and the performed network operations
  recorded in an explicit event trace;
* `getZoneDns`, `getSubdomain` — `OvhProvider._get_zone_dns` and
  `OvhProvider._get_subdomain` of `src/factories/providers/providers.py`,
  with Python strings embedded as `List Char` and Python's `str.split('.')`
  / `'.'.join` embedded as `splitOnDot` / `joinDot`;
* `ovhUpdate` — `OvhProvider.update`;
* `cloudflareGet`, `cloudflareUpdate` — `CloudflareProvider.get` and
  `CloudflareProvider.update`, with the already-decoded JSON response
  envelopes as explicit inputs;
* `mainRun` — the top-level `try`/`except` of `src/main.py` around the
  orchestrator call, producing the log entries and the process exit code.
-/

namespace DnsUpdater

/-- The `RecordDTO` of `src/factories/providers/dtos.py`: id, fully-qualified
name and current IP of a DNS record. -/
structure RecordDTO where
  id : String
  name : String
  ip : String
deriving DecidableEq, Repr

/-- The `ResultUpdateDTO` of `src/factories/providers/dtos.py`: boolean state
(changed or not) and a human-readable reason. -/
structure ResultUpdateDTO where
  state : Bool
  reason : String
deriving DecidableEq, Repr

/-- The two operations of the abstract `Provider` class of
`src/factories/providers/providers.py`, as pure functions: `get` fetches a
record by name (or none), `update` pushes a new IP and returns the list of
provider-reported error reasons. -/
structure ProviderModel where
  get : String → Option RecordDTO
  update : RecordDTO → String → List String

/-- A network operation performed by the orchestrator, recorded so that
claims about which calls occur ("no network write", "exactly one update
call", "the public-IP service is never invoked") can be stated. -/
inductive Event where
  | fetch (name : String)
  | getPublicIp
  | update (record : RecordDTO) (ip : String)
deriving DecidableEq, Repr

/-- Whether an event is an update call (a network write). -/
def Event.isUpdate : Event → Bool
  | Event.update _ _ => true
  | _ => false

/-- Python's `repr` of the elements of a list of strings, as interpolated
by the f-string of `ProviderCreator.updateIfChanged`: elements
single-quoted and comma-separated. -/
def pyReprInner (e : String) : List String → String
  | [] => "'" ++ e ++ "'"
  | f :: fs => "'" ++ e ++ "'" ++ ", " ++ pyReprInner f fs

/-- Python's `repr` of a nonempty list wrapped in square brackets; see
`pyReprInner` for the body. -/
def pyReprList : List String → String
  | [] => "[]"
  | e :: es => "[" ++ pyReprInner e es ++ "]"

/-- The orchestrator `ProviderCreator.updateIfChanged` of
`src/factories/providers/creators.py`.  `provider` is the instance made by
`_make`, `publicIp` the string the public-IP service (`_get_public_ip`)
would return.  Returns the Python result — a `ResultUpdateDTO`, or the
message of the raised `Exception` — together with the trace of network
operations performed, in order. -/
def updateIfChanged (provider : ProviderModel) (publicIp : String)
    (name : String) : Except String ResultUpdateDTO × List Event :=
  match provider.get name with
  | none =>
      (Except.error ("Record '" ++ name ++ "' not found."),
       [Event.fetch name])
  | some record =>
      if record.ip ≠ publicIp then
        let errors := provider.update record publicIp
        if errors.length ≠ 0 then
          (Except.error ("Record update failed for " ++ name ++
              " with these reasons: " ++ pyReprList errors ++ "."),
           [Event.fetch name, Event.getPublicIp,
            Event.update record publicIp])
        else
          (Except.ok ⟨true, "Record updated successful for '" ++ name ++ "'."⟩,
           [Event.fetch name, Event.getPublicIp,
            Event.update record publicIp])
      else
        (Except.ok ⟨false,
            "Record not updated for '" ++ name ++ "' because hasn't changed."⟩,
         [Event.fetch name, Event.getPublicIp])

/-- Python's `name.split('.')` on a string embedded as `List Char`: the
maximal run of dot-free segments, so that `"".split('.') = [""]` and
adjacent dots yield empty segments, exactly as in Python. -/
def splitOnDot : List Char → List (List Char)
  | [] => [[]]
  | c :: cs =>
      if c = '.' then [] :: splitOnDot cs
      else
        match splitOnDot cs with
        | [] => [[c]]
        | p :: ps => (c :: p) :: ps

/-- Python's `".".join(parts)` on strings embedded as `List Char`. -/
def joinDot : List (List Char) → List Char
  | [] => []
  | [p] => p
  | p :: q :: ps => p ++ '.' :: joinDot (q :: ps)

/-- The function `OvhProvider._get_zone_dns` of `src/factories/providers/providers.py`:
split the name on dots; with more than two labels, join the last two
(`split_name[-2:]`), otherwise join them all back. -/
def getZoneDns (name : List Char) : List Char :=
  let splitName := splitOnDot name
  if 2 < splitName.length then
    joinDot (splitName.drop (splitName.length - 2))
  else
    joinDot splitName

/-- The function `OvhProvider._get_subdomain` of `src/factories/providers/providers.py`:
split the name on dots; with more than two labels, join all but the last
two (`split_name[:-2]`), otherwise return the empty string. -/
def getSubdomain (name : List Char) : List Char :=
  let splitName := splitOnDot name
  if 2 < splitName.length then
    joinDot (splitName.take (splitName.length - 2))
  else
    []

/-- The response of the OVH client's `put` call; `OvhProvider.update`
ignores it entirely. -/
structure PutResponse where
  body : String
deriving DecidableEq, Repr

/-- The method `OvhProvider.update` of `src/factories/providers/providers.py`: derive
zone and subdomain from the record's name, issue the PUT
(`put zoneDns recordId subdomain target`) and return the empty error list
unconditionally — the PUT's response is discarded. -/
def ovhUpdate (put : List Char → String → List Char → String → PutResponse)
    (record : RecordDTO) (ip : String) : List String :=
  let zoneDns := getZoneDns record.name.toList
  let subdomain := getSubdomain record.name.toList
  let _ := put zoneDns record.id subdomain ip
  []

/-- One element of the `result` array in Cloudflare's decoded JSON
response to the DNS-records GET: the fields `CloudflareProvider.get`
reads. -/
structure CfRecordJson where
  id : String
  name : String
  content : String
deriving DecidableEq, Repr

/-- The decoded JSON envelope of Cloudflare's GET response: its `result`
array. -/
structure CfGetResponse where
  result : List CfRecordJson
deriving DecidableEq, Repr

/-- The method `CloudflareProvider.get` of `src/factories/providers/providers.py`
after the JSON response is decoded: build a `RecordDTO` from
`data['result'][0]`; the `IndexError` on an empty `result` array is caught
and turned into `None`. -/
def cloudflareGet (response : CfGetResponse) : Option RecordDTO :=
  match response.result with
  | [] => none
  | entry :: _ => some ⟨entry.id, entry.name, entry.content⟩

/-- The decoded JSON envelope of Cloudflare's PATCH response: its
`errors` array. -/
structure CfUpdateResponse where
  errors : List String
deriving DecidableEq, Repr

/-- The method `CloudflareProvider.update` of `src/factories/providers/providers.py`
after the JSON response is decoded: return `data['errors']` verbatim. -/
def cloudflareUpdate (response : CfUpdateResponse) : List String :=
  response.errors

/-- A message sent to the logging collaborator by `src/main.py`:
`Logger.info` or `Logger.error`. -/
inductive LogEntry where
  | info (msg : String)
  | error (msg : String)
deriving DecidableEq, Repr

/-- The `try`/`except` block of `src/main.py` around the orchestrator
call: on a normal return, `Logger.info(update_result.get_reason())` and
the process ends with exit code 0; on any raised exception,
`Logger.error(str(error))` and `exit(1)`.  Returns the log entries emitted
and the process exit code. -/
def mainRun (provider : ProviderModel) (publicIp name : String) :
    List LogEntry × Nat :=
  match (updateIfChanged provider publicIp name).1 with
  | Except.ok result => ([LogEntry.info result.reason], 0)
  | Except.error msg => ([LogEntry.error msg], 1)

end DnsUpdater

namespace DnsUpdater

/-! ### Helper lemmas about `splitOnDot` and `joinDot` -/

/-- `splitOnDot` never returns an empty list of segments. -/
theorem splitOnDot_ne_nil (l : List Char) : splitOnDot l ≠ [] := by
  induction l with
  | nil => simp [splitOnDot]
  | cons c cs ih =>
    simp only [splitOnDot]
    split
    · simp
    · cases h : splitOnDot cs with
      | nil => simp
      | cons p ps => simp

/-- Joining the dot-split of a string gives back the string: the round
trip of Python's `".".join(name.split('.')) == name`. -/
theorem joinDot_splitOnDot (l : List Char) : joinDot (splitOnDot l) = l := by
  induction l with
  | nil => rfl
  | cons c cs ih =>
    obtain ⟨p, ps, hps⟩ := List.exists_cons_of_ne_nil (splitOnDot_ne_nil cs)
    by_cases hc : c = '.'
    · subst hc
      rw [show splitOnDot ('.' :: cs) = [] :: splitOnDot cs from by
        simp [splitOnDot], hps]
      rw [hps] at ih
      show ([] : List Char) ++ '.' :: joinDot (p :: ps) = '.' :: cs
      simp [ih]
    · rw [show splitOnDot (c :: cs) = (c :: p) :: ps from by
        simp [splitOnDot, hc, hps]]
      rw [hps] at ih
      cases ps with
      | nil =>
        show c :: p = c :: cs
        simpa [joinDot] using ih
      | cons q qs =>
        show (c :: p) ++ '.' :: joinDot (q :: qs) = c :: cs
        simp only [List.cons_append]
        rw [show p ++ '.' :: joinDot (q :: qs) = joinDot (p :: q :: qs) from rfl, ih]

/-- `joinDot` distributes over the concatenation of two nonempty segment
lists, inserting one dot at the seam. -/
theorem joinDot_append (a b : List (List Char)) (ha : a ≠ []) (hb : b ≠ []) :
    joinDot (a ++ b) = joinDot a ++ '.' :: joinDot b := by
  induction a with
  | nil => exact absurd rfl ha
  | cons p as ih =>
    cases as with
    | nil =>
      obtain ⟨q, bs, rfl⟩ := List.exists_cons_of_ne_nil hb
      rfl
    | cons q as2 =>
      have h1 : (p :: q :: as2) ++ b = p :: ((q :: as2) ++ b) := rfl
      obtain ⟨r, bs, rfl⟩ := List.exists_cons_of_ne_nil hb
      rw [h1]
      rw [show joinDot (p :: ((q :: as2) ++ (r :: bs))) =
        p ++ '.' :: joinDot ((q :: as2) ++ (r :: bs)) from rfl]
      rw [ih (by simp) ]
      rw [show joinDot (p :: q :: as2) = p ++ '.' :: joinDot (q :: as2) from rfl]
      simp [List.append_assoc]

/-! ### Helper lemmas about `pyReprInner` and `pyReprList` -/

/-- Every element of a list occurs verbatim inside `pyReprInner`'s
rendering of it. -/
theorem mem_pyReprInner (e e0 : String) (es : List String) (h : e ∈ e0 :: es) :
    ∃ pre post, pyReprInner e0 es = pre ++ e ++ post := by
  induction es generalizing e0 with
  | nil =>
    rcases List.mem_singleton.mp h with rfl
    exact ⟨"'", "'", rfl⟩
  | cons f fs ih =>
    rcases List.mem_cons.mp h with rfl | hmem
    · refine ⟨"'", "'" ++ ", " ++ pyReprInner f fs, ?_⟩
      simp [pyReprInner, String.append_assoc]
    · obtain ⟨pre, post, hp⟩ := ih f hmem
      refine ⟨"'" ++ e0 ++ "'" ++ ", " ++ pre, post, ?_⟩
      simp [pyReprInner, hp, String.append_assoc]

/-- Every element of a list occurs verbatim inside `pyReprList`'s
rendering of it. -/
theorem mem_pyReprList (e : String) (l : List String) (h : e ∈ l) :
    ∃ pre post, pyReprList l = pre ++ e ++ post := by
  match l with
  | [] => exact absurd h (List.not_mem_nil e)
  | e0 :: es =>
    obtain ⟨pre, post, hp⟩ := mem_pyReprInner e e0 es h
    refine ⟨"[" ++ pre, post ++ "]", ?_⟩
    simp [pyReprList, hp, String.append_assoc]

end DnsUpdater

namespace DnsUpdater

/-- C1: when the fetched record's IP is string-equal to the resolved
public IP, `updateIfChanged` returns changed=false with the "hasn't
changed" reason, and its trace contains no update call (no network
write). -/
theorem c1_unchanged_no_update (provider : ProviderModel)
    (publicIp name : String) (record : RecordDTO)
    (hget : provider.get name = some record)
    (heq : record.ip = publicIp) :
    updateIfChanged provider publicIp name =
      (Except.ok ⟨false,
          "Record not updated for '" ++ name ++ "' because hasn't changed."⟩,
       [Event.fetch name, Event.getPublicIp]) ∧
    ∀ e ∈ (updateIfChanged provider publicIp name).2, e.isUpdate = false := by
  constructor
  · simp [updateIfChanged, hget, heq]
  · simp [updateIfChanged, hget, heq, Event.isUpdate]

/-- Witness for C1 at a concrete provider and record. -/
theorem c1_unchanged_no_update_witness :
    updateIfChanged
        ⟨fun _ => some ⟨"id1", "host", "1.2.3.4"⟩, fun _ _ => []⟩
        "1.2.3.4" "host" =
      (Except.ok ⟨false,
          "Record not updated for '" ++ "host" ++ "' because hasn't changed."⟩,
       [Event.fetch "host", Event.getPublicIp]) ∧
    ∀ e ∈ (updateIfChanged
        ⟨fun _ => some ⟨"id1", "host", "1.2.3.4"⟩, fun _ _ => []⟩
        "1.2.3.4" "host").2, e.isUpdate = false :=
  c1_unchanged_no_update
    ⟨fun _ => some ⟨"id1", "host", "1.2.3.4"⟩, fun _ _ => []⟩
    "1.2.3.4" "host" ⟨"id1", "host", "1.2.3.4"⟩ rfl rfl

/-- C2: when the fetched record's IP differs from the resolved public IP,
`updateIfChanged` performs exactly one update call, passing the resolved
public IP and the just-fetched record (with its id), and when that call
returns an empty error list the outcome is changed=true with the success
reason naming the record. -/
theorem c2_changed_one_update (provider : ProviderModel)
    (publicIp name : String) (record : RecordDTO)
    (hget : provider.get name = some record)
    (hne : record.ip ≠ publicIp) :
    (updateIfChanged provider publicIp name).2.filter (fun e => e.isUpdate) =
      [Event.update record publicIp] ∧
    (provider.update record publicIp = [] →
      (updateIfChanged provider publicIp name).1 =
        Except.ok ⟨true, "Record updated successful for '" ++ name ++ "'."⟩) := by
  constructor
  · by_cases herr : (provider.update record publicIp).length ≠ 0
    · simp [updateIfChanged, hget, hne, herr, Event.isUpdate]
    · simp [updateIfChanged, hget, hne, herr, Event.isUpdate]
  · intro hupd
    simp [updateIfChanged, hget, hne, hupd]

/-- Witness for C2 at a concrete provider whose update succeeds. -/
theorem c2_changed_one_update_witness :
    (updateIfChanged
        ⟨fun _ => some ⟨"id2", "host2", "1.2.3.4"⟩, fun _ _ => []⟩
        "5.6.7.8" "host2").2.filter (fun e => e.isUpdate) =
      [Event.update ⟨"id2", "host2", "1.2.3.4"⟩ "5.6.7.8"] ∧
    ((⟨fun _ => some ⟨"id2", "host2", "1.2.3.4"⟩, fun _ _ => []⟩ :
        ProviderModel).update ⟨"id2", "host2", "1.2.3.4"⟩ "5.6.7.8" = [] →
      (updateIfChanged
          ⟨fun _ => some ⟨"id2", "host2", "1.2.3.4"⟩, fun _ _ => []⟩
          "5.6.7.8" "host2").1 =
        Except.ok ⟨true, "Record updated successful for '" ++ "host2" ++ "'."⟩) :=
  c2_changed_one_update
    ⟨fun _ => some ⟨"id2", "host2", "1.2.3.4"⟩, fun _ _ => []⟩
    "5.6.7.8" "host2" ⟨"id2", "host2", "1.2.3.4"⟩ rfl (by decide)

/-- C3: when fetch yields no record, `updateIfChanged` raises the "not
found" error and the update operation is never called. -/
theorem c3_not_found_raises (provider : ProviderModel)
    (publicIp name : String) (hget : provider.get name = none) :
    (updateIfChanged provider publicIp name).1 =
      Except.error ("Record '" ++ name ++ "' not found.") ∧
    ∀ e ∈ (updateIfChanged provider publicIp name).2, e.isUpdate = false := by
  simp [updateIfChanged, hget, Event.isUpdate]

/-- Witness for C3 at a concrete provider with no record. -/
theorem c3_not_found_raises_witness :
    (updateIfChanged ⟨fun _ => none, fun _ _ => []⟩ "1.2.3.4" "host3").1 =
      Except.error ("Record '" ++ "host3" ++ "' not found.") ∧
    ∀ e ∈ (updateIfChanged ⟨fun _ => none, fun _ _ => []⟩
        "1.2.3.4" "host3").2, e.isUpdate = false :=
  c3_not_found_raises ⟨fun _ => none, fun _ _ => []⟩ "1.2.3.4" "host3" rfl

/-- C4: when the update call returns a non-empty error list,
`updateIfChanged` raises the "update failed" error, whose message contains
each returned reason verbatim, and no success outcome is returned. -/
theorem c4_update_failed_raises (provider : ProviderModel)
    (publicIp name : String) (record : RecordDTO)
    (hget : provider.get name = some record)
    (hne : record.ip ≠ publicIp)
    (herr : provider.update record publicIp ≠ []) :
    (updateIfChanged provider publicIp name).1 =
      Except.error ("Record update failed for " ++ name ++
        " with these reasons: " ++
        pyReprList (provider.update record publicIp) ++ ".") ∧
    (∀ r, (updateIfChanged provider publicIp name).1 ≠ Except.ok r) ∧
    (∀ e ∈ provider.update record publicIp,
      ∃ pre post,
        "Record update failed for " ++ name ++ " with these reasons: " ++
          pyReprList (provider.update record publicIp) ++ "." =
        pre ++ e ++ post) := by
  have hlen : (provider.update record publicIp).length ≠ 0 := by
    simpa using herr
  refine ⟨?_, ?_, ?_⟩
  · simp [updateIfChanged, hget, hne, hlen]
  · intro r
    simp [updateIfChanged, hget, hne, hlen]
  · intro e he
    obtain ⟨pre, post, hp⟩ := mem_pyReprList e _ he
    refine ⟨"Record update failed for " ++ name ++ " with these reasons: " ++ pre,
            post ++ ".", ?_⟩
    simp [hp, String.append_assoc]

/-- Witness for C4 at a concrete provider whose update reports
"invalid target". -/
theorem c4_update_failed_raises_witness :
    (updateIfChanged
        ⟨fun _ => some ⟨"id4", "host4", "1.2.3.4"⟩,
         fun _ _ => ["invalid target"]⟩ "5.6.7.8" "host4").1 =
      Except.error ("Record update failed for " ++ "host4" ++
        " with these reasons: " ++ pyReprList ["invalid target"] ++ ".") ∧
    (∀ r, (updateIfChanged
        ⟨fun _ => some ⟨"id4", "host4", "1.2.3.4"⟩,
         fun _ _ => ["invalid target"]⟩ "5.6.7.8" "host4").1 ≠ Except.ok r) ∧
    (∀ e ∈ ["invalid target"],
      ∃ pre post,
        "Record update failed for " ++ "host4" ++ " with these reasons: " ++
          pyReprList ["invalid target"] ++ "." = pre ++ e ++ post) :=
  c4_update_failed_raises
    ⟨fun _ => some ⟨"id4", "host4", "1.2.3.4"⟩, fun _ _ => ["invalid target"]⟩
    "5.6.7.8" "host4" ⟨"id4", "host4", "1.2.3.4"⟩ rfl (by decide) (by decide)

end DnsUpdater

namespace DnsUpdater

/-- C5: `OvhProvider.update` returns the empty error list for every
record, every new IP and every PUT response, so the orchestrator always
treats an OVH update as successful: on the changed path it returns the
success outcome whatever the PUT did. -/
theorem c5_ovh_update_always_empty
    (put : List Char → String → List Char → String → PutResponse)
    (record : RecordDTO) (ip : String) :
    ovhUpdate put record ip = [] ∧
    ∀ (get : String → Option RecordDTO) (publicIp name : String)
      (rec : RecordDTO),
      get name = some rec → rec.ip ≠ publicIp →
      (updateIfChanged ⟨get, ovhUpdate put⟩ publicIp name).1 =
        Except.ok ⟨true, "Record updated successful for '" ++ name ++ "'."⟩ := by
  refine ⟨rfl, ?_⟩
  intro get publicIp name rec hget hne
  simp [updateIfChanged, hget, hne, ovhUpdate]

/-- Witness for C5 at a concrete OVH-style provider on the changed path. -/
theorem c5_ovh_update_always_empty_witness :
    ovhUpdate (fun _ _ _ _ => ⟨"resp"⟩)
        ⟨"id5", "ovh.example.com", "1.2.3.4"⟩ "5.6.7.8" = [] ∧
    (updateIfChanged
        ⟨fun _ => some ⟨"id5", "ovh.example.com", "1.2.3.4"⟩,
         ovhUpdate (fun _ _ _ _ => ⟨"resp"⟩)⟩ "5.6.7.8" "ovh.example.com").1 =
      Except.ok ⟨true,
        "Record updated successful for '" ++ "ovh.example.com" ++ "'."⟩ :=
  ⟨(c5_ovh_update_always_empty (fun _ _ _ _ => ⟨"resp"⟩)
      ⟨"id5", "ovh.example.com", "1.2.3.4"⟩ "5.6.7.8").1,
   (c5_ovh_update_always_empty (fun _ _ _ _ => ⟨"resp"⟩)
      ⟨"id5", "ovh.example.com", "1.2.3.4"⟩ "5.6.7.8").2
     (fun _ => some ⟨"id5", "ovh.example.com", "1.2.3.4"⟩)
     "5.6.7.8" "ovh.example.com" ⟨"id5", "ovh.example.com", "1.2.3.4"⟩
     rfl (by decide)⟩

/-- C6: for every name with at least two labels, the OVH derivation takes
the zone as the join of the last two dot-separated labels and the
subdomain as the join of the remaining leading labels; in particular
"a.b.example.com" gives zone "example.com" and subdomain "a.b", and the
bare two-label "example.com" gives zone "example.com" and subdomain "". -/
theorem c6_ovh_zone_subdomain :
    (∀ name : List Char, 2 ≤ (splitOnDot name).length →
      getZoneDns name =
        joinDot ((splitOnDot name).drop ((splitOnDot name).length - 2)) ∧
      getSubdomain name =
        joinDot ((splitOnDot name).take ((splitOnDot name).length - 2))) ∧
    getZoneDns "a.b.example.com".toList = "example.com".toList ∧
    getSubdomain "a.b.example.com".toList = "a.b".toList ∧
    getZoneDns "example.com".toList = "example.com".toList ∧
    getSubdomain "example.com".toList = "".toList := by
  refine ⟨?_, by decide, by decide, by decide, by decide⟩
  intro name h
  by_cases h2 : 2 < (splitOnDot name).length
  · exact ⟨by simp [getZoneDns, h2], by simp [getSubdomain, h2]⟩
  · have hlen : (splitOnDot name).length = 2 := le_antisymm (not_lt.mp h2) h
    refine ⟨?_, ?_⟩
    · simp [getZoneDns, h2, hlen]
    · simp [getSubdomain, h2, hlen, joinDot]

/-- Witness for C6: its general part applied at the three-label name
"x.example.com". -/
theorem c6_ovh_zone_subdomain_witness :
    2 ≤ (splitOnDot "x.example.com".toList).length ∧
    (getZoneDns "x.example.com".toList =
        joinDot ((splitOnDot "x.example.com".toList).drop
          ((splitOnDot "x.example.com".toList).length - 2)) ∧
     getSubdomain "x.example.com".toList =
        joinDot ((splitOnDot "x.example.com".toList).take
          ((splitOnDot "x.example.com".toList).length - 2))) :=
  ⟨by decide, c6_ovh_zone_subdomain.1 "x.example.com".toList (by decide)⟩

/-- C7: `CloudflareProvider.get` returns none exactly when the decoded
response has zero matches, and otherwise the record built from the first
match's id, name and content; `CloudflareProvider.update` returns exactly
the errors array of the response envelope, empty iff no errors were
reported. -/
theorem c7_cloudflare_get_update :
    (∀ response : CfGetResponse,
      cloudflareGet response = none ↔ response.result = []) ∧
    (∀ (entry : CfRecordJson) (rest : List CfRecordJson),
      cloudflareGet ⟨entry :: rest⟩ =
        some ⟨entry.id, entry.name, entry.content⟩) ∧
    (∀ response : CfUpdateResponse,
      cloudflareUpdate response = response.errors) ∧
    (∀ response : CfUpdateResponse,
      cloudflareUpdate response = [] ↔ response.errors = []) := by
  refine ⟨?_, fun _ _ => rfl, fun _ => rfl, fun _ => Iff.rfl⟩
  intro response
  cases response with
  | mk res => cases res <;> simp [cloudflareGet]

/-- C8: the entry point logs exactly the orchestrator's outcome reason and
exits 0 when no error propagates, and logs the error message and exits
with the non-zero status 1 on every propagated error. -/
theorem c8_exit_code_and_logging (provider : ProviderModel)
    (publicIp name : String) :
    (∀ result, (updateIfChanged provider publicIp name).1 = Except.ok result →
      mainRun provider publicIp name = ([LogEntry.info result.reason], 0)) ∧
    (∀ msg, (updateIfChanged provider publicIp name).1 = Except.error msg →
      mainRun provider publicIp name = ([LogEntry.error msg], 1) ∧
      (mainRun provider publicIp name).2 ≠ 0) := by
  constructor
  · intro result h
    simp [mainRun, h]
  · intro msg h
    simp [mainRun, h]

/-- Witness for C8 at a concrete successful run. -/
theorem c8_exit_code_and_logging_witness :
    mainRun ⟨fun _ => some ⟨"id8", "host8", "1.2.3.4"⟩, fun _ _ => []⟩
        "1.2.3.4" "host8" =
      ([LogEntry.info
          ("Record not updated for '" ++ "host8" ++ "' because hasn't changed.")],
       0) :=
  (c8_exit_code_and_logging
      ⟨fun _ => some ⟨"id8", "host8", "1.2.3.4"⟩, fun _ _ => []⟩
      "1.2.3.4" "host8").1
    ⟨false, "Record not updated for '" ++ "host8" ++ "' because hasn't changed."⟩
    rfl

/-- C9: the OVH derivation satisfies the reconstruction invariant: either
the subdomain is empty and the zone is the whole name, or
subdomain ++ "." ++ zone rebuilds the name exactly. -/
theorem c9_reconstruction (name : List Char) :
    (getSubdomain name = [] ∧ getZoneDns name = name) ∨
    getSubdomain name ++ '.' :: getZoneDns name = name := by
  by_cases h2 : 2 < (splitOnDot name).length
  · right
    have hta : (splitOnDot name).take ((splitOnDot name).length - 2) ≠ [] := by
      apply List.ne_nil_of_length_pos
      rw [List.length_take]
      omega
    have htb : (splitOnDot name).drop ((splitOnDot name).length - 2) ≠ [] := by
      apply List.ne_nil_of_length_pos
      rw [List.length_drop]
      omega
    rw [show getSubdomain name =
        joinDot ((splitOnDot name).take ((splitOnDot name).length - 2)) from by
      simp [getSubdomain, h2]]
    rw [show getZoneDns name =
        joinDot ((splitOnDot name).drop ((splitOnDot name).length - 2)) from by
      simp [getZoneDns, h2]]
    rw [← joinDot_append _ _ hta htb, List.take_append_drop]
    exact joinDot_splitOnDot name
  · left
    refine ⟨by simp [getSubdomain, h2], ?_⟩
    rw [show getZoneDns name = joinDot (splitOnDot name) from by
      simp [getZoneDns, h2]]
    exact joinDot_splitOnDot name

/-- C10: on the not-found path `updateIfChanged` raises before resolving
the public IP: the trace is exactly the single fetch, so the public-IP
call never occurs. -/
theorem c10_not_found_no_public_ip (provider : ProviderModel)
    (publicIp name : String) (hget : provider.get name = none) :
    (updateIfChanged provider publicIp name).2 = [Event.fetch name] ∧
    Event.getPublicIp ∉ (updateIfChanged provider publicIp name).2 := by
  simp [updateIfChanged, hget]

/-- Witness for C10 at a concrete provider with no record. -/
theorem c10_not_found_no_public_ip_witness :
    (updateIfChanged ⟨fun _ => none, fun _ _ => []⟩ "9.9.9.9" "host10").2 =
      [Event.fetch "host10"] ∧
    Event.getPublicIp ∉
      (updateIfChanged ⟨fun _ => none, fun _ _ => []⟩ "9.9.9.9" "host10").2 :=
  c10_not_found_no_public_ip ⟨fun _ => none, fun _ _ => []⟩ "9.9.9.9" "host10" rfl

end DnsUpdater
